import Mathlib

/-!
Verification of the NEXARV2.1 listing marketplace against its specification.

The development shallowly embeds the two behaviour-carrying parts of the
repository:

* `src/src/pages/HomePage.tsx` — the home page view: `formatListing`,
  `loadListings` and `handleCategoryClick`.  JavaScript objects are modelled
  by a record `Obj` whose fields cover every key the component reads or
  writes; an absent (undefined) key is `none`.  The component's display
  state (`featuredListings`, `recentListings`, `isLoading`, `error`,
  `networkError`) is the record `HState`, and each handler becomes a pure
  state-transition function taking the fetch results as explicit inputs.

* `src/.bolt/supabase_discarded_migrations/20250701150123_dusty_morning.sql`
  — the row-level-security policies on `listings` and the `handle_new_user`
  provisioning trigger.  Each policy's USING clause becomes a boolean
  predicate over the caller and the row; permissive policies for the same
  command combine by disjunction, as PostgreSQL evaluates them.
-/

namespace Nexar

/-- Does the character list `s` start with the character list `sub`?
Building block for the JavaScript `String.prototype.includes` test used by
the error classifier in HomePage.tsx. -/
def startsWithChars : List Char → List Char → Bool
  | [], _ => true
  | _ :: _, [] => false
  | a :: as, b :: bs => a == b && startsWithChars as bs

/-- Does `sub` occur as a contiguous run inside `s`? -/
def hasSubChars (sub : List Char) : List Char → Bool
  | [] => sub.isEmpty
  | c :: rest => startsWithChars sub (c :: rest) || hasSubChars sub rest

/-- JavaScript `s.includes(sub)`: substring occurrence test. -/
def jsIncludes (s sub : String) : Bool :=
  hasSubChars sub.data s.data

/-- HomePage.tsx line 20: the fixed fallback image path. -/
def fallbackImage : String := "/category-images/fallback.jpg"

/-- A JavaScript listing object as the home page reads and writes it.  The
fields cover the raw keys read by `formatListing` (`images`, `seller_name`,
`seller_id`, `seller_type`, `featured`, `availability`, plus the scalar
fields copied verbatim) and the keys its result object carries (`image`,
`seller`, `sellerId`, `sellerType`).  `none` models an absent key. -/
structure Obj where
  id : Option String := none
  title : Option String := none
  price : Option Int := none
  year : Option Int := none
  mileage : Option Int := none
  location : Option String := none
  images : Option (List String) := none
  image : Option String := none
  seller_name : Option String := none
  seller : Option String := none
  seller_id : Option String := none
  sellerId : Option String := none
  seller_type : Option String := none
  sellerType : Option String := none
  category : Option String := none
  brand : Option String := none
  model : Option String := none
  featured : Option Bool := none
  availability : Option String := none
deriving DecidableEq, Repr

/-- JavaScript `v || d` on an optional string: an absent value and the empty
string (both falsy) yield the default `d`. -/
def jsOrString (v : Option String) (d : String) : String :=
  match v with
  | none => d
  | some s => if s = "" then d else s

/-- HomePage.tsx lines 102-118, `formatListing`: the pure mapping from a
listing object to the display object.  The result is an object literal with
exactly the display keys, so every raw-only key of the result is absent. -/
def formatListing (listing : Obj) : Obj :=
  { id := listing.id
    title := listing.title
    price := listing.price
    year := listing.year
    mileage := listing.mileage
    location := listing.location
    images := none
    image := some (match listing.images with
      | some (img :: _) => img
      | _ => fallbackImage)
    seller_name := none
    seller := listing.seller_name
    seller_id := none
    sellerId := listing.seller_id
    seller_type := none
    sellerType := listing.seller_type
    category := listing.category
    brand := listing.brand
    model := listing.model
    featured := some (listing.featured.getD false)
    availability := some (jsOrString listing.availability "pe_stoc") }

/-- A failure object returned by the data source; `message` may be absent
(the component reads it with optional chaining, `error.message?.includes`). -/
structure ErrObj where
  message : Option String := none
deriving DecidableEq, Repr

/-- The `{ data, error }` shape `listings.getAll` resolves to. -/
structure FetchResult where
  data : Option (List Obj) := none
  error : Option ErrObj := none
deriving DecidableEq, Repr

/-- The home page's display state: the five `useState` cells of HomePage.tsx
lines 23-27. -/
structure HState where
  featuredListings : List Obj := []
  recentListings : List Obj := []
  isLoading : Bool := true
  error : Option String := none
  networkError : Option ErrObj := none
deriving DecidableEq, Repr

/-- `e.message?.includes(sub)` coerced to boolean: an absent message is
falsy, so it never matches. -/
def msgIncludes (e : ErrObj) (sub : String) : Bool :=
  match e.message with
  | none => false
  | some m => jsIncludes m sub

/-- The connectivity heuristic used at every failure site of HomePage.tsx
(lines 57, 70, 92, 132, 150): the message mentions "fetch" or "network". -/
def isConnectivityError (e : ErrObj) : Bool :=
  msgIncludes e "fetch" || msgIncludes e "network"

/-- HomePage.tsx lines 44-100, `loadListings`, as a state transition.  The
two fetches are sequential; the recent fetch result is consulted only when
the featured fetch carried no error, matching the early returns.  The
`finally` block always clears `isLoading`. -/
def loadListings (s : HState) (featuredRes recentRes : FetchResult) : HState :=
  let s0 : HState := { s with isLoading := true, error := none, networkError := none }
  match featuredRes.error with
  | some e =>
    if isConnectivityError e then
      { s0 with networkError := some e, isLoading := false }
    else
      { s0 with error := some "Nu s-au putut încărca anunțurile recomandate", isLoading := false }
  | none =>
    match recentRes.error with
    | some e =>
      if isConnectivityError e then
        { s0 with networkError := some e, isLoading := false }
      else
        { s0 with error := some "Nu s-au putut încărca anunțurile recente", isLoading := false }
    | none =>
      let formattedFeatured := ((featuredRes.data.getD []).take 4).map formatListing
      let formattedRecent :=
        (((recentRes.data.getD []).filter
            (fun listing => !(formattedFeatured.any (fun f => f.id == listing.id)))).take 8).map
          formatListing
      { s0 with
        featuredListings := formattedFeatured
        recentListings := formattedRecent
        isLoading := false }

/-- HomePage.tsx lines 120-158, `handleCategoryClick`, as a state
transition on the category fetch's result. -/
def handleCategoryClick (category : String) (s : HState) (res : FetchResult) : HState :=
  let s0 : HState := { s with isLoading := true, error := none, networkError := none }
  match res.error with
  | some e =>
    if isConnectivityError e then
      { s0 with networkError := some e, isLoading := false }
    else
      { s0 with
        error := some ("Nu s-au putut încărca anunțurile din categoria " ++ category)
        isLoading := false }
  | none =>
    { s0 with
      featuredListings := []
      recentListings := (res.data.getD []).map formatListing
      isLoading := false }

/-!  The SQL layer: the `handle_new_user` trigger and the listings
row-level-security policies of the repair migration. -/

/-- PostgreSQL `split_part(s, delim, n)` (1-indexed; empty string when the
field index is out of range). -/
def split_part (s delim : String) (n : Nat) : String :=
  ((s.splitOn delim).drop (n - 1)).headD ""

/-- The signup metadata keys the trigger reads from
`NEW.raw_user_meta_data`; `none` models an absent key (`->>` yields NULL). -/
structure UserMetaData where
  name : Option String := none
  phone : Option String := none
  location : Option String := none
  sellerType : Option String := none
deriving DecidableEq, Repr

/-- The `NEW` row of `auth.users` seen by the trigger. -/
structure NewUser where
  id : String
  email : String
  raw_user_meta_data : UserMetaData := {}
deriving DecidableEq, Repr

/-- The profiles row the trigger inserts (migration lines 161-179). -/
structure ProfileInsert where
  user_id : String
  name : String
  email : String
  phone : String
  location : String
  seller_type : String
  is_admin : Bool
  verified : Bool
deriving DecidableEq, Repr

/-- The VALUES clause of the trigger's INSERT: COALESCE supplies the
defaults for absent metadata, `is_admin` compares the email against the
fixed administrative address, `verified` is the literal false. -/
def newUserProfile (u : NewUser) : ProfileInsert :=
  { user_id := u.id
    name := u.raw_user_meta_data.name.getD (split_part u.email "@" 1)
    email := u.email
    phone := u.raw_user_meta_data.phone.getD ""
    location := u.raw_user_meta_data.location.getD ""
    seller_type := u.raw_user_meta_data.sellerType.getD "individual"
    is_admin := u.email == "admin@nexar.ro"
    verified := false }

/-- Observable outcome of one firing of the trigger: the inserts it
attempted, the row actually inserted (none when the INSERT raised), whether
the WARNING was logged, and whether the `auth.users` insert itself was
allowed to proceed (`RETURN NEW`). -/
structure TriggerOutcome where
  attemptedInserts : List ProfileInsert
  insertedProfile : Option ProfileInsert
  warningLogged : Bool
  accountCreated : Bool
deriving DecidableEq, Repr

/-- Migration lines 157-188, `handle_new_user`: one INSERT is attempted;
`insertSucceeds` abstracts whether the database accepts it.  The EXCEPTION
handler catches any failure, logs a warning and still returns NEW, so the
account row is created in either case. -/
def handle_new_user (u : NewUser) (insertSucceeds : Bool) : TriggerOutcome :=
  { attemptedInserts := [newUserProfile u]
    insertedProfile := if insertSucceeds then some (newUserProfile u) else none
    warningLogged := !insertSucceeds
    accountCreated := true }

/-- A profiles row as the listings policies consult it. -/
structure DBProfileRow where
  id : String
  user_id : Option String
deriving DecidableEq, Repr

/-- A listings row as the policies consult it. -/
structure ListingRow where
  seller_id : String
  status : String
deriving DecidableEq, Repr

/-- The caller's authentication context: `auth.uid()` and `auth.email()`,
either of which may be NULL. -/
structure Caller where
  uid : Option String := none
  email : Option String := none
deriving DecidableEq, Repr

/-- The fixed administrative email of the admin policies. -/
def adminEmail : String := "admin@nexar.ro"

/-- Policy `listings_select_active` (migration lines 74-75):
`status = 'active'`. -/
def listings_select_active (l : ListingRow) : Bool :=
  l.status == "active"

/-- The subquery `SELECT id FROM profiles WHERE user_id = auth.uid()
LIMIT 1` shared by the owner policies. -/
def ownerProfileIds (profiles : List DBProfileRow) (uid : String) : List String :=
  ((profiles.filter (fun p => p.user_id == some uid)).map (fun p => p.id)).take 1

/-- The USING clause shared verbatim by `listings_select_own`,
`listings_update_own` and `listings_delete_own` (migration lines 77-109):
`auth.uid() IS NOT NULL AND seller_id IN (...)`. -/
def listings_owner_policy (c : Caller) (profiles : List DBProfileRow) (l : ListingRow) : Bool :=
  match c.uid with
  | none => false
  | some uid => (ownerProfileIds profiles uid).contains l.seller_id

/-- Policy `admin_select_all_listings` (migration lines 147-148):
`auth.email() = 'admin@nexar.ro'`; a NULL email never matches. -/
def admin_select_all_listings (c : Caller) : Bool :=
  c.email == some adminEmail

/-- Policy `admin_update_all_listings` (migration lines 150-151). -/
def admin_update_all_listings (c : Caller) : Bool :=
  c.email == some adminEmail

/-- Policy `admin_delete_all_listings` (migration lines 153-154). -/
def admin_delete_all_listings (c : Caller) : Bool :=
  c.email == some adminEmail

/-- SELECT permission on a listings row: the disjunction of the permissive
SELECT policies the migration leaves in place. -/
def canSelectListing (c : Caller) (profiles : List DBProfileRow) (l : ListingRow) : Bool :=
  listings_select_active l || listings_owner_policy c profiles l || admin_select_all_listings c

/-- UPDATE permission on a listings row. -/
def canUpdateListing (c : Caller) (profiles : List DBProfileRow) (l : ListingRow) : Bool :=
  listings_owner_policy c profiles l || admin_update_all_listings c

/-- DELETE permission on a listings row. -/
def canDeleteListing (c : Caller) (profiles : List DBProfileRow) (l : ListingRow) : Bool :=
  listings_owner_policy c profiles l || admin_delete_all_listings c

/-!  Concrete states and fetch results used by the witnesses below. -/

/-- A listing object as the data source would deliver it. -/
def sampleRaw : Obj :=
  { id := some "l1", title := some "CBR", price := some 7000, images := some ["/img/cbr.jpg"],
    seller_name := some "Ana", seller_id := some "p1", seller_type := some "dealer",
    featured := some true, availability := some "pe_stoc" }

/-- A display state with both grids populated and the loading flag set. -/
def sampleState : HState :=
  { featuredListings := [formatListing sampleRaw], recentListings := [formatListing sampleRaw],
    isLoading := true, error := none, networkError := none }

/-- A failure whose message names the network. -/
def netErr : ErrObj := { message := some "network timeout" }

/-- A failure whose message names neither fetch nor network. -/
def appErr : ErrObj := { message := some "row level security violation" }

/-- A successful fetch result carrying one listing. -/
def okRes : FetchResult := { data := some [sampleRaw], error := none }

/-- A new user whose signup metadata is entirely absent. -/
def bareUser : NewUser := { id := "u1", email := "ana@example.com" }

/-- The fixed administrative account. -/
def adminUser : NewUser := { id := "u0", email := "admin@nexar.ro" }

/-!  Lemmas about `jsOrString`. -/

/-- `jsOrString` with the in-stock default never yields the empty string. -/
theorem jsOrString_pe_stoc_ne_empty (v : Option String) :
    jsOrString v "pe_stoc" ≠ "" := by
  cases v with
  | none => simp [jsOrString]
  | some s =>
    simp only [jsOrString]
    split
    · simp
    · assumption

/-- Feeding the in-stock-defaulted value back through `jsOrString` is the
identity. -/
theorem jsOrString_pe_stoc_idem (v : Option String) :
    jsOrString (some (jsOrString v "pe_stoc")) "pe_stoc" = jsOrString v "pe_stoc" := by
  simp only [jsOrString]
  split
  · exact absurd (by assumption) (jsOrString_pe_stoc_ne_empty v)
  · rfl

/-- Claim C2: `formatListing` is total on raw listing records — it is a
plain function on `Obj` — and applies the documented defaults: a missing or
empty image sequence yields the fixed fallback image, a missing
availability yields the in-stock value `"pe_stoc"`, and a missing featured
flag yields `false`. -/
theorem formatListing_total_defaults (r : Obj) :
    ((r.images = none ∨ r.images = some []) → (formatListing r).image = some fallbackImage) ∧
    (r.availability = none → (formatListing r).availability = some "pe_stoc") ∧
    (r.featured = none → (formatListing r).featured = some false) := by
  refine ⟨fun h => ?_, fun h => ?_, fun h => ?_⟩
  · rcases h with h | h <;> simp [formatListing, h]
  · simp [formatListing, jsOrString, h]
  · simp [formatListing, h]

/-- Witness for C2: a record with every key absent formats to the fallback
image, the in-stock availability and an unfeatured flag. -/
theorem formatListing_total_defaults_witness :
    (formatListing {}).image = some fallbackImage ∧
    (formatListing {}).availability = some "pe_stoc" ∧
    (formatListing {}).featured = some false :=
  ⟨(formatListing_total_defaults {}).1 (Or.inl rfl),
   (formatListing_total_defaults {}).2.1 rfl,
   (formatListing_total_defaults {}).2.2 rfl⟩

/-- Counterexample to claim C3: `formatListing` is not idempotent.  On a
record carrying an image and a seller name, the second application reads
the raw keys `images` and `seller_name`, which the first application's
result object does not carry, so the image collapses to the fallback and
the seller is lost. -/
theorem formatListing_not_idempotent :
    formatListing (formatListing { images := some ["/img/cbr.jpg"], seller_name := some "Ana" }) ≠
      formatListing { images := some ["/img/cbr.jpg"], seller_name := some "Ana" } := by
  decide

/-- Amended claim C3: a second application of `formatListing` agrees with
the first on every field except that it resets `image` to the fallback and
clears `seller`, `sellerId` and `sellerType`; idempotence therefore holds
exactly on records whose single formatting already has those values. -/
theorem formatListing_double_apply (r : Obj) :
    formatListing (formatListing r) =
      { formatListing r with
        image := some fallbackImage
        seller := none
        sellerId := none
        sellerType := none } := by
  cases r
  simp [formatListing, jsOrString_pe_stoc_idem]

/-- Witness for the amended C3 at a concrete record with an image and a
seller name. -/
theorem formatListing_double_apply_witness :
    formatListing (formatListing sampleRaw) =
      { formatListing sampleRaw with
        image := some fallbackImage
        seller := none
        sellerId := none
        sellerType := none } :=
  formatListing_double_apply sampleRaw

/-- Claim C5: a successful category fetch clears the featured grid and
shows the whole formatted result list as the recent grid — no truncation
and no dependence on the records' featured flags. -/
theorem handleCategoryClick_success (category : String) (s : HState) (res : FetchResult)
    (h : res.error = none) :
    (handleCategoryClick category s res).featuredListings = [] ∧
    (handleCategoryClick category s res).recentListings =
      (res.data.getD []).map formatListing := by
  simp [handleCategoryClick, h]

/-- Witness for C5 at a concrete fetch of one featured listing: the
featured grid still empties and the recent grid holds the full result. -/
theorem handleCategoryClick_success_witness :
    (handleCategoryClick "sport" sampleState okRes).featuredListings = [] ∧
    (handleCategoryClick "sport" sampleState okRes).recentListings =
      (okRes.data.getD []).map formatListing :=
  handleCategoryClick_success "sport" sampleState okRes rfl

/-- Claim C6: when the featured fetch succeeds but the recent fetch fails,
`loadListings` leaves both display grids at their prior values — the
featured results already obtained are discarded, never rendered alone. -/
theorem loadListings_recent_failure_frame (s : HState) (fRes rRes : FetchResult) (e : ErrObj)
    (hf : fRes.error = none) (hr : rRes.error = some e) :
    (loadListings s fRes rRes).featuredListings = s.featuredListings ∧
    (loadListings s fRes rRes).recentListings = s.recentListings := by
  simp only [loadListings, hf, hr]
  split <;> simp

/-- Witness for C6: featured fetch succeeded, recent fetch failed with an
application error; both grids keep their prior (non-empty) contents. -/
theorem loadListings_recent_failure_frame_witness :
    (loadListings sampleState okRes { error := some appErr }).featuredListings =
      sampleState.featuredListings ∧
    (loadListings sampleState okRes { error := some appErr }).recentListings =
      sampleState.recentListings :=
  loadListings_recent_failure_frame sampleState okRes { error := some appErr } appErr rfl rfl

/-- Counterexample to claim C10: on a failing category fetch the display
grids are indeed unchanged, but the error and network-error fields are not
the only state modified — the loading flag is forced to false by the
`finally` step, so a state that was loading changes beyond those fields. -/
theorem handleCategoryClick_failure_modifies_isLoading :
    (handleCategoryClick "sport" sampleState { error := some appErr }).featuredListings =
      sampleState.featuredListings ∧
    (handleCategoryClick "sport" sampleState { error := some appErr }).recentListings =
      sampleState.recentListings ∧
    (handleCategoryClick "sport" sampleState { error := some appErr }).isLoading ≠
      sampleState.isLoading := by
  decide

/-- Amended claim C10: when a category fetch fails (network-class or
application-class), `handleCategoryClick` leaves both display grids
unchanged; besides the error and network-error fields, only the loading
flag changes, being reset to false. -/
theorem handleCategoryClick_failure_frame (category : String) (s : HState)
    (res : FetchResult) (e : ErrObj) (h : res.error = some e) :
    (handleCategoryClick category s res).featuredListings = s.featuredListings ∧
    (handleCategoryClick category s res).recentListings = s.recentListings ∧
    (handleCategoryClick category s res).isLoading = false := by
  simp only [handleCategoryClick, h]
  split <;> simp

/-- Witness for the amended C10 at a concrete network-class failure. -/
theorem handleCategoryClick_failure_frame_witness :
    (handleCategoryClick "touring" sampleState { error := some netErr }).featuredListings =
      sampleState.featuredListings ∧
    (handleCategoryClick "touring" sampleState { error := some netErr }).recentListings =
      sampleState.recentListings ∧
    (handleCategoryClick "touring" sampleState { error := some netErr }).isLoading = false :=
  handleCategoryClick_failure_frame "touring" sampleState { error := some netErr } netErr rfl

/-- Claim C4: at every fetch-failure site (the featured fetch, the recent
fetch after a successful featured fetch, and the category fetch), a failure
whose message contains "network" puts the view in the network-error state
with the application-error state clear, and a failure whose message
contains neither "fetch" nor "network" sets the site's localized
application error with the network-error state clear. -/
theorem fetch_failure_classification (s : HState) (category : String) (e : ErrObj)
    (fOk rRes : FetchResult) (hOk : fOk.error = none) :
    (msgIncludes e "network" = true →
      ((loadListings s { error := some e } rRes).networkError = some e ∧
        (loadListings s { error := some e } rRes).error = none) ∧
      ((loadListings s fOk { error := some e }).networkError = some e ∧
        (loadListings s fOk { error := some e }).error = none) ∧
      ((handleCategoryClick category s { error := some e }).networkError = some e ∧
        (handleCategoryClick category s { error := some e }).error = none)) ∧
    (msgIncludes e "fetch" = false → msgIncludes e "network" = false →
      ((loadListings s { error := some e } rRes).networkError = none ∧
        (loadListings s { error := some e } rRes).error =
          some "Nu s-au putut încărca anunțurile recomandate") ∧
      ((loadListings s fOk { error := some e }).networkError = none ∧
        (loadListings s fOk { error := some e }).error =
          some "Nu s-au putut încărca anunțurile recente") ∧
      ((handleCategoryClick category s { error := some e }).networkError = none ∧
        (handleCategoryClick category s { error := some e }).error =
          some ("Nu s-au putut încărca anunțurile din categoria " ++ category))) := by
  constructor
  · intro hn
    simp [loadListings, handleCategoryClick, isConnectivityError, hOk, hn]
  · intro hf hn
    simp [loadListings, handleCategoryClick, isConnectivityError, hOk, hf, hn]

/-- Witness for C4: a "network timeout" failure routes each site to the
network-error state, and a message naming neither substring routes the
category fetch to its localized application error. -/
theorem fetch_failure_classification_witness :
    (loadListings sampleState { error := some netErr } okRes).networkError = some netErr ∧
    (handleCategoryClick "sport" sampleState { error := some appErr }).error =
      some ("Nu s-au putut încărca anunțurile din categoria " ++ "sport") :=
  ⟨((fetch_failure_classification sampleState "sport" netErr okRes okRes rfl).1
      (by decide)).1.1,
   ((fetch_failure_classification sampleState "sport" appErr okRes okRes rfl).2
      (by decide) (by decide)).2.2.2⟩

/-- Formatting preserves the id key. -/
theorem formatListing_id (l : Obj) : (formatListing l).id = l.id := rfl

/-- Claim C1: after a successful `loadListings`, whatever the data source
returned, the featured grid holds at most 4 records, the recent grid holds
at most 8, and no recent record's id equals the id of a featured record. -/
theorem loadListings_success_invariants (s : HState) (fRes rRes : FetchResult)
    (hf : fRes.error = none) (hr : rRes.error = none) :
    (loadListings s fRes rRes).featuredListings.length ≤ 4 ∧
    (loadListings s fRes rRes).recentListings.length ≤ 8 ∧
    ∀ r ∈ (loadListings s fRes rRes).recentListings,
      ∀ f ∈ (loadListings s fRes rRes).featuredListings, r.id ≠ f.id := by
  simp only [loadListings, hf, hr]
  refine ⟨?_, ?_, ?_⟩
  · simp [List.length_take]
  · simp [List.length_take]
  · intro r hrmem f hfmem heq
    obtain ⟨l, hl, rfl⟩ := List.mem_map.1 hrmem
    have hl2 := List.mem_of_mem_take hl
    have hp := (List.mem_filter.1 hl2).2
    rw [Bool.not_eq_true', List.any_eq_false] at hp
    exact hp f hfmem (by rw [beq_iff_eq, ← formatListing_id l, heq])

/-- Witness for C1: a concrete successful load of one featured and one
recent result obeys the two length caps. -/
theorem loadListings_success_invariants_witness :
    (loadListings sampleState okRes okRes).featuredListings.length ≤ 4 ∧
    (loadListings sampleState okRes okRes).recentListings.length ≤ 8 :=
  ⟨(loadListings_success_invariants sampleState okRes okRes rfl rfl).1,
   (loadListings_success_invariants sampleState okRes okRes rfl rfl).2.1⟩

/-- Claim C7: for every new account the trigger attempts exactly one
profile insert, populated from the signup metadata with safe defaults —
absent phone and location become the empty string and an absent seller type
becomes `'individual'` — and account creation succeeds whether or not the
insert does. -/
theorem handle_new_user_provisioning (u : NewUser) (insertSucceeds : Bool) :
    (handle_new_user u insertSucceeds).attemptedInserts = [newUserProfile u] ∧
    (handle_new_user u insertSucceeds).accountCreated = true ∧
    (u.raw_user_meta_data.phone = none → (newUserProfile u).phone = "") ∧
    (u.raw_user_meta_data.location = none → (newUserProfile u).location = "") ∧
    (u.raw_user_meta_data.sellerType = none → (newUserProfile u).seller_type = "individual") := by
  refine ⟨rfl, rfl, fun h => ?_, fun h => ?_, fun h => ?_⟩ <;> simp [newUserProfile, h]

/-- Witness for C7: a metadata-free signup whose profile insert fails still
creates the account, and its row carried the documented defaults. -/
theorem handle_new_user_provisioning_witness :
    (handle_new_user bareUser false).accountCreated = true ∧
    (newUserProfile bareUser).phone = "" ∧
    (newUserProfile bareUser).location = "" ∧
    (newUserProfile bareUser).seller_type = "individual" :=
  ⟨(handle_new_user_provisioning bareUser false).2.1,
   (handle_new_user_provisioning bareUser false).2.2.1 rfl,
   (handle_new_user_provisioning bareUser false).2.2.2.1 rfl,
   (handle_new_user_provisioning bareUser false).2.2.2.2 rfl⟩

/-- Claim C9: every profile row the trigger attempts to insert has
`is_admin` true exactly when the account's email is `admin@nexar.ro`, and
`verified` false, irrespective of the signup metadata. -/
theorem handle_new_user_admin_verified (u : NewUser) (insertSucceeds : Bool) :
    ∀ p ∈ (handle_new_user u insertSucceeds).attemptedInserts,
      (p.is_admin = true ↔ u.email = "admin@nexar.ro") ∧ p.verified = false := by
  intro p hp
  simp only [handle_new_user, List.mem_singleton] at hp
  subst hp
  exact ⟨by simp [newUserProfile], rfl⟩

/-- Witness for C9: the admin account's row has the admin flag set and is
unverified; a witness that the membership hypothesis is dischargeable. -/
theorem handle_new_user_admin_verified_witness :
    (newUserProfile adminUser).is_admin = true ∧ (newUserProfile adminUser).verified = false :=
  ⟨(handle_new_user_admin_verified adminUser true (newUserProfile adminUser)
      (by simp [handle_new_user])).1.mpr rfl,
   (handle_new_user_admin_verified adminUser true (newUserProfile adminUser)
      (by simp [handle_new_user])).2⟩

/-- Claim C8: after the policy-repair migration, a caller authenticated
with the fixed administrative email may select, update and delete every
listings row, owner or not; and the three admin policies grant nothing to a
caller with any other (or no) email. -/
theorem admin_policies_bypass (c : Caller) (profiles : List DBProfileRow) (l : ListingRow) :
    (c.email = some adminEmail →
      canSelectListing c profiles l = true ∧
      canUpdateListing c profiles l = true ∧
      canDeleteListing c profiles l = true) ∧
    (c.email ≠ some adminEmail →
      admin_select_all_listings c = false ∧
      admin_update_all_listings c = false ∧
      admin_delete_all_listings c = false) := by
  constructor
  · intro h
    refine ⟨?_, ?_, ?_⟩ <;>
      simp [canSelectListing, canUpdateListing, canDeleteListing,
        admin_select_all_listings, admin_update_all_listings, admin_delete_all_listings, h]
  · intro h
    refine ⟨?_, ?_, ?_⟩ <;>
      simpa [admin_select_all_listings, admin_update_all_listings,
        admin_delete_all_listings, beq_eq_false_iff_ne] using h

/-- Witness for C8: the admin-email caller — with no profile row at all —
may select a non-active listing it does not own, while a caller with a
different email gets nothing from the admin select policy. -/
theorem admin_policies_bypass_witness :
    canSelectListing { email := some adminEmail } [] { seller_id := "p1", status := "draft" } =
      true ∧
    admin_select_all_listings { uid := some "u2", email := some "ana@example.com" } = false :=
  ⟨((admin_policies_bypass { email := some adminEmail } []
      { seller_id := "p1", status := "draft" }).1 rfl).1,
   ((admin_policies_bypass { uid := some "u2", email := some "ana@example.com" } []
      { seller_id := "p1", status := "draft" }).2 (by decide)).1⟩

end Nexar
